import Mathlib

/-!
Verification development for the webtrade repository: a trainer script
(src/scripts/train-model.py) that fits a RandomForest classifier on
technical-indicator features, and a predictor script (src/scripts/predict.py)
that loads the saved bundle and scores a single 13-element feature vector.

The scripts are thin orchestration around library calls (sklearn, numpy,
joblib).  We embed the repository's own logic exactly, and represent the
opaque library objects (fitted classifier, fitted scaler, train/test split)
as parameters: an abstract classifier is a pair of functions from a feature
row to a predicted class code and to a probability vector, an abstract
scaler is a function on rows, and a split is a function producing the four
partitions.  Calls that can raise a Python exception are embedded as
Option-valued functions, with `none` standing for a raised exception that
propagates to the script's top-level handler.

Numeric values are modelled as rationals (the scripts do no float-specific
reasoning), class codes as integers, and signal labels as the literal
strings the code uses.
-/

/-- Fitted classifier as exposed to predict.py: `predict` yields the single
predicted class code for a scaled row (`model.predict(X_scaled)[0]`), and
`predictProba` yields the per-class probability vector
(`model.predict_proba(X_scaled)[0]`).  `none` models a raised exception. -/
structure RFModel where
  predict : List ℚ → Option ℤ
  predictProba : List ℚ → Option (List ℚ)

/-- Fitted scaler as exposed to predict.py: `transform` maps a feature row to
a scaled row (`scaler.transform(X)`), `none` modelling a raised exception
(for example on a shape mismatch). -/
structure Scaler where
  transform : List ℚ → Option (List ℚ)

/-- Probabilities mapping of the prediction result, with the three keys the
code writes: buy, hold, sell. -/
structure ProbsDict where
  buy : ℚ
  hold : ℚ
  sell : ℚ
deriving DecidableEq, Repr

/-- Prediction result object built by predict_signal in predict.py. -/
structure PredictionResult where
  signal : String
  confidence : ℚ
  probabilities : ProbsDict
deriving DecidableEq, Repr

/-- Fixed table `label_map = {0: 'sell', 1: 'hold', 2: 'buy'}` from
predict.py line 39, as a partial lookup. -/
def label_map (k : ℤ) : Option String :=
  if k = 0 then some "sell"
  else if k = 1 then some "hold"
  else if k = 2 then some "buy"
  else none

/-- Embedding of predict_signal (predict.py lines 26-56): scale the row,
predict the class code and the probability vector, map the code through
`label_map` with dictionary default "hold" (`label_map.get(prediction,
'hold')`), take the maximum probability as confidence (`np.max`, which
raises on an empty vector), and read the probabilities at indices 2, 1, 0
(which raise if the vector is shorter).  `none` models an exception
propagating out of the function. -/
def predict_signal (model : RFModel) (scaler : Scaler) (features : List ℚ) :
    Option PredictionResult :=
  match scaler.transform features with
  | none => none
  | some xScaled =>
  match model.predict xScaled with
  | none => none
  | some prediction =>
  match model.predictProba xScaled with
  | none => none
  | some probabilities =>
  match probabilities.max? with
  | none => none
  | some confidence =>
  match probabilities.get? 2, probabilities.get? 1, probabilities.get? 0 with
  | some pBuy, some pHold, some pSell =>
      some { signal := (label_map prediction).getD "hold"
           , confidence := confidence
           , probabilities := { buy := pBuy, hold := pHold, sell := pSell } }
  | _, _, _ => none

/-- Observable events of a predictor run: the feature-count warning printed
to stderr (predict.py lines 78-79), the scaler and classifier invocations
inside predict_signal, and the two output destinations (file via --output,
or stdout). -/
inductive PredEvent where
  | warnFeatureCount (n : ℕ)
  | scalerCalled (features : List ℚ)
  | classifierCalled (xScaled : List ℚ)
  | wroteFile (r : PredictionResult)
  | printedStdout (r : PredictionResult)
deriving DecidableEq, Repr

/-- Outcome of a predictor invocation: the process exit code and the list of
observable events in program order. -/
structure PredOutcome where
  exitCode : ℕ
  events : List PredEvent
deriving DecidableEq, Repr

/-- Embedding of main in predict.py (lines 59-98).  `loaded` is the result
of joblib-loading the bundle (`none` = exception), `parsedFeatures` the
result of `json.loads(args.features)` (`none` = malformed JSON), and
`outputPath` the optional --output argument.  Any exception is caught by the
top-level handler and mapped to exit code 1; a feature count other than 13
only prints a warning and execution continues. -/
def predict_main (loaded : Option (RFModel × Scaler))
    (parsedFeatures : Option (List ℚ)) (outputPath : Option String) :
    PredOutcome :=
  match loaded with
  | none => { exitCode := 1, events := [] }
  | some (model, scaler) =>
  match parsedFeatures with
  | none => { exitCode := 1, events := [] }
  | some features =>
    let warnEvs : List PredEvent :=
      if features.length = 13 then [] else [.warnFeatureCount features.length]
    let callEvs : List PredEvent :=
      .scalerCalled features ::
        (match scaler.transform features with
         | some xs => [.classifierCalled xs]
         | none => [])
    match predict_signal model scaler features with
    | none => { exitCode := 1, events := warnEvs ++ callEvs }
    | some result =>
      match outputPath with
      | some _ =>
          { exitCode := 0, events := warnEvs ++ callEvs ++ [.wroteFile result] }
      | none =>
          { exitCode := 0, events := warnEvs ++ callEvs ++ [.printedStdout result] }

/-- The JSON value written to the --output file during a run, when any
(`json.dump(result, f, indent=2)`, predict.py lines 85-88). -/
def fileOutput (o : PredOutcome) : Option PredictionResult :=
  o.events.findSome? fun e =>
    match e with
    | .wroteFile r => some r
    | _ => none

/-- The JSON value printed to stdout during a run, when any
(`print(json.dumps(result))`, predict.py line 90). -/
def stdoutOutput (o : PredOutcome) : Option PredictionResult :=
  o.events.findSome? fun e =>
    match e with
    | .printedStdout r => some r
    | _ => none

/-- Parsed training input: the `features` and `labels` arrays of the
training JSON document. -/
structure TrainInput where
  features : List (List ℚ)
  labels : List ℤ
deriving DecidableEq, Repr

/-- Embedding of load_data (train-model.py lines 26-38): the parsed arrays
are returned as-is (np.array conversion is a representation change, not a
value change); no transformation is applied to the labels. -/
def load_data (input : TrainInput) : List (List ℚ) × List ℤ :=
  (input.features, input.labels)

/-- Result of the library call train_test_split(X, y, ...): the four
partitions, in the order the script destructures them. -/
structure SplitResult where
  xTrain : List (List ℚ)
  xTest : List (List ℚ)
  yTrain : List ℤ
  yTest : List ℤ
deriving DecidableEq, Repr

/-- Abstract train/test split: any function producing the four partitions
from the data (train_test_split is an opaque library call). -/
def SplitFun : Type :=
  List (List ℚ) → List ℤ → SplitResult

/-- Abstract StandardScaler implementation over a parameter type P: `fit`
computes fitted parameters from a data matrix, `transform` applies fitted
parameters to a data matrix.  sklearn's fit_transform(X) is fit(X) followed
by transform with the resulting parameters. -/
structure ScalerImpl (P : Type) where
  fit : List (List ℚ) → P
  transform : P → List (List ℚ) → List (List ℚ)

/-- Record of the data-flow facts of one trainer run after the split: which
data the scaler was fitted on, which scaled matrix and label vector were
passed to model.fit, and the exact arguments of the cross_val_score call in
evaluate_model (train-model.py line 86). -/
structure FitRecord (P : Type) where
  scalerParams : P
  scalerFitData : List (List ℚ)
  fitX : List (List ℚ)
  fitY : List ℤ
  cvX : List (List ℚ)
  cvY : List ℤ
  cvFolds : ℕ

/-- Embedding of the trainer pipeline after train_test_split (train-model.py
lines 160-169): `scaler.fit_transform(X_train)` fits the scaler on the
training partition and scales it, `scaler.transform(X_test)` scales the test
partition with the already-fitted parameters, `model.fit` receives the
scaled training features and the raw training labels, and evaluate_model
invokes cross_val_score with the scaled test features, the test labels and
cv=5. -/
def train_after_split {P : Type} (impl : ScalerImpl P)
    (xTrain xTest : List (List ℚ)) (yTrain yTest : List ℤ) : FitRecord P :=
  let params := impl.fit xTrain
  { scalerParams := params
  , scalerFitData := xTrain
  , fitX := impl.transform params xTrain
  , fitY := yTrain
  , cvX := impl.transform params xTest
  , cvY := yTest
  , cvFolds := 5 }

/-- Embedding of the trainer's successful data path (train-model.py main,
lines 148-172): load the data, split it, and run the post-split pipeline. -/
def train_pipeline {P : Type} (split : SplitFun) (impl : ScalerImpl P)
    (input : TrainInput) : FitRecord P :=
  let (x, y) := load_data input
  let s := split x y
  train_after_split impl s.xTrain s.xTest s.yTrain s.yTest

/-- Observable events of a trainer run; the only externally visible write is
the saved model bundle (save_model, train-model.py lines 120-137). -/
inductive TrainEvent where
  | savedModel
deriving DecidableEq, Repr

/-- Outcome of a trainer invocation: process exit code and observable
events. -/
structure TrainOutcome where
  exitCode : ℕ
  events : List TrainEvent
deriving DecidableEq, Repr

/-- Embedding of main in train-model.py (lines 140-186).  `parsed` is the
result of parsing the input JSON (`none` = malformed, an exception caught by
the top-level handler giving exit code 1 with nothing written).  On a
successful run the bundle is saved after all computation, and the process
exits 0. -/
def train_main {P : Type} (parsed : Option TrainInput) (split : SplitFun)
    (impl : ScalerImpl P) : TrainOutcome :=
  match parsed with
  | none => { exitCode := 1, events := [] }
  | some input =>
    let _record := train_pipeline split impl input
    { exitCode := 0, events := [TrainEvent.savedModel] }

/-- Modelled from the spec: the label remapping the specification asserts
the trainer performs before the classifier fit, sending -1 to 0, 0 to 1 and
1 to 2.  No such remapping exists anywhere in train-model.py; this
definition exists only to compare the claim against the code. -/
def claimedRemap (l : ℤ) : ℤ :=
  if l = -1 then 0 else if l = 0 then 1 else if l = 1 then 2 else l

/-- Concrete split instance placing every sample in the training partition,
used to exhibit the exact label vector reaching the classifier fit. -/
def allTrainSplit : SplitFun :=
  fun x y => { xTrain := x, xTest := [], yTrain := y, yTest := [] }

/-- Concrete scaler instance whose transform is the identity, used for
concrete evaluations. -/
def idScaler : ScalerImpl Unit :=
  { fit := fun _ => (), transform := fun _ x => x }

/-- Concrete three-sample training input with one label of each class. -/
def cexInput : TrainInput :=
  { features := [[1], [2], [3]], labels := [-1, 0, 1] }

/-- Concrete classifier instance returning a fixed class code and a fixed
probability vector, used for concrete evaluations of the predictor. -/
def testModel (p : ℤ) (probs : List ℚ) : RFModel :=
  { predict := fun _ => some p, predictProba := fun _ => some probs }

/-- Concrete fitted-scaler instance whose transform is the identity. -/
def testScaler : Scaler :=
  { transform := fun f => some f }

/-- Helper: whenever predict_signal succeeds, its signal field is the
dictionary lookup of the predicted class code in label_map, with default
"hold". -/
theorem predict_signal_signal_eq (m : RFModel) (s : Scaler) (f xs : List ℚ)
    (p : ℤ) (r : PredictionResult)
    (hx : s.transform f = some xs) (hp : m.predict xs = some p)
    (hr : predict_signal m s f = some r) :
    r.signal = (label_map p).getD "hold" := by
  unfold predict_signal at hr
  rw [hx] at hr
  dsimp only at hr
  rw [hp] at hr
  dsimp only at hr
  rcases hpp : m.predictProba xs with _ | probs <;> rw [hpp] at hr <;> dsimp only at hr
  · exact absurd hr (by simp)
  rcases hmax : probs.max? with _ | conf <;> rw [hmax] at hr
  · exact absurd hr (by simp)
  rcases h2 : probs.get? 2 with _ | pB <;>
    rcases h1 : probs.get? 1 with _ | pH <;>
    rcases h0 : probs.get? 0 with _ | pS <;>
    rw [h2, h1, h0] at hr <;>
    simp only [Option.some.injEq] at hr <;>
    first
      | exact absurd hr (by simp)
      | exact congrArg PredictionResult.signal hr.symm

/-- Helper: whenever predict_signal succeeds and the probability vector is
the three-element list [a, b, c], the confidence is the maximum of the three
and the probabilities dictionary reads indices 2, 1, 0 as buy, hold, sell. -/
theorem predict_signal_probs_eq (m : RFModel) (s : Scaler) (f xs : List ℚ)
    (p : ℤ) (a b c : ℚ) (r : PredictionResult)
    (hx : s.transform f = some xs) (hp : m.predict xs = some p)
    (hpp : m.predictProba xs = some [a, b, c])
    (hr : predict_signal m s f = some r) :
    r.confidence = max (max a b) c ∧ r.probabilities.buy = c ∧
      r.probabilities.hold = b ∧ r.probabilities.sell = a := by
  unfold predict_signal at hr
  rw [hx] at hr
  dsimp only at hr
  rw [hp] at hr
  dsimp only at hr
  rw [hpp] at hr
  simp only [List.max?, List.foldl, List.get?, Option.some.injEq] at hr
  subst hr
  exact ⟨rfl, rfl, rfl, rfl⟩

/-- Claim C1: the claim states that the label vector passed to the
classifier fit is the input labels transformed by -1 to 0, 0 to 1, 1 to 2.
This counterexample evaluates the trainer pipeline on a concrete input with
labels [-1, 0, 1] (under a split putting every sample in the training
partition) and shows the vector reaching fit is [-1, 0, 1], not the remapped
[0, 1, 2]: the claimed remapping does not occur in the code. -/
theorem spec_C1_counterexample :
    ¬ ((train_pipeline allTrainSplit idScaler cexInput).fitY
        = cexInput.labels.map claimedRemap) := by
  decide

/-- Claim C1 (amended): no remapping occurs in the trainer: the label vector
passed to the classifier fit is exactly the training-partition part of the
input labels, unchanged; in particular under a split putting every sample in
the training partition, fit receives the raw input labels. -/
theorem spec_C1_amended (P : Type) (impl : ScalerImpl P) (split : SplitFun)
    (input : TrainInput) :
    (train_pipeline split impl input).fitY
        = (split input.features input.labels).yTrain
    ∧ (train_pipeline allTrainSplit idScaler input).fitY = input.labels :=
  ⟨rfl, rfl⟩

/-- Claim C2: the predictor produces the signal field by looking the
predicted class code up in the fixed table label_map = {0: sell, 1: hold,
2: buy} (with the dictionary default); in particular code 0 yields "sell",
code 1 yields "hold" and code 2 yields "buy". -/
theorem spec_C2 (m : RFModel) (s : Scaler) (f xs : List ℚ) (p : ℤ)
    (r : PredictionResult)
    (hx : s.transform f = some xs) (hp : m.predict xs = some p)
    (hr : predict_signal m s f = some r) :
    r.signal = (label_map p).getD "hold"
    ∧ (p = 0 → r.signal = "sell")
    ∧ (p = 1 → r.signal = "hold")
    ∧ (p = 2 → r.signal = "buy") := by
  have h := predict_signal_signal_eq m s f xs p r hx hp hr
  refine ⟨h, ?_, ?_, ?_⟩ <;> rintro rfl <;> simpa [label_map] using h

/-- Concrete result of the predictor on a classifier that returns class code
2 with probability vector [0, 0, 1]. -/
def w2 : PredictionResult :=
  { signal := "buy", confidence := 1, probabilities := { buy := 1, hold := 0, sell := 0 } }

/-- Witness for claim C2 at a concrete bundle whose classifier returns class
code 2: the signal is "buy". -/
theorem spec_C2_witness :
    predict_signal (testModel 2 [0, 0, 1]) testScaler [1] = some w2
    ∧ w2.signal = "buy" :=
  ⟨by decide,
   (spec_C2 (testModel 2 [0, 0, 1]) testScaler [1] [1] 2 w2 rfl rfl
      (by decide)).2.2.2 rfl⟩

/-- Claim C3: for a bundle whose classifier predicts codes in the trainer's
label domain {-1, 0, 1}, the signal is "sell" exactly when the code is 0,
"hold" when the code is -1 or 1 (through the dictionary-lookup default), and
"buy" is never emitted. -/
theorem spec_C3 (m : RFModel) (s : Scaler) (f xs : List ℚ) (p : ℤ)
    (r : PredictionResult)
    (hx : s.transform f = some xs) (hp : m.predict xs = some p)
    (hr : predict_signal m s f = some r)
    (hdom : p = -1 ∨ p = 0 ∨ p = 1) :
    (p = 0 → r.signal = "sell")
    ∧ ((p = -1 ∨ p = 1) → r.signal = "hold")
    ∧ r.signal ≠ "buy" := by
  have h := predict_signal_signal_eq m s f xs p r hx hp hr
  rcases hdom with rfl | rfl | rfl
  · refine ⟨fun h0 => absurd h0 (by decide), fun _ => ?_, ?_⟩
    · simpa [label_map] using h
    · have hh : r.signal = "hold" := by simpa [label_map] using h
      rw [hh]; decide
  · refine ⟨fun _ => ?_, fun h1 => absurd h1 (by decide), ?_⟩
    · simpa [label_map] using h
    · have hh : r.signal = "sell" := by simpa [label_map] using h
      rw [hh]; decide
  · refine ⟨fun h0 => absurd h0 (by decide), fun _ => ?_, ?_⟩
    · simpa [label_map] using h
    · have hh : r.signal = "hold" := by simpa [label_map] using h
      rw [hh]; decide

/-- Concrete result of the predictor on a classifier that returns class code
-1 (a code the trainer's label domain produces) with probability vector
[1, 0, 0]. -/
def w3 : PredictionResult :=
  { signal := "hold", confidence := 1, probabilities := { buy := 0, hold := 0, sell := 1 } }

/-- Witness for claim C3 at a concrete bundle whose classifier returns class
code -1: the signal is "hold", not "buy". -/
theorem spec_C3_witness :
    predict_signal (testModel (-1) [1, 0, 0]) testScaler [1] = some w3
    ∧ w3.signal ≠ "buy" :=
  ⟨by decide,
   (spec_C3 (testModel (-1) [1, 0, 0]) testScaler [1] [1] (-1) w3 rfl rfl
      (by decide) (Or.inl rfl)).2.2⟩

/-- Claim C5: confidence is the maximum of the per-class probabilities, the
probabilities mapping is assembled by fixed index order (buy = index 2, hold
= index 1, sell = index 0), and when the probability vector is a
distribution the confidence lies in [0, 1] and the three probabilities sum
to 1. -/
theorem spec_C5 (m : RFModel) (s : Scaler) (f xs : List ℚ) (p : ℤ)
    (a b c : ℚ) (r : PredictionResult)
    (hx : s.transform f = some xs) (hp : m.predict xs = some p)
    (hpp : m.predictProba xs = some [a, b, c])
    (ha : 0 ≤ a) (hb : 0 ≤ b) (hc : 0 ≤ c) (hsum : a + b + c = 1)
    (hr : predict_signal m s f = some r) :
    r.confidence = max (max a b) c
    ∧ r.probabilities.buy = c
    ∧ r.probabilities.hold = b
    ∧ r.probabilities.sell = a
    ∧ 0 ≤ r.confidence
    ∧ r.confidence ≤ 1
    ∧ r.probabilities.buy + r.probabilities.hold + r.probabilities.sell = 1 := by
  obtain ⟨hconf, hbuy, hhold, hsell⟩ :=
    predict_signal_probs_eq m s f xs p a b c r hx hp hpp hr
  refine ⟨hconf, hbuy, hhold, hsell, ?_, ?_, ?_⟩
  · rw [hconf]
    exact le_trans ha (le_trans (le_max_left a b) (le_max_left _ c))
  · rw [hconf]
    have ha1 : a ≤ 1 := by linarith
    have hb1 : b ≤ 1 := by linarith
    have hc1 : c ≤ 1 := by linarith
    exact max_le (max_le ha1 hb1) hc1
  · rw [hbuy, hhold, hsell]
    linarith

/-- Concrete result of the predictor on a classifier returning code 2 with
distribution [0, 0, 1]. -/
def w5 : PredictionResult :=
  { signal := "buy", confidence := 1
  , probabilities := { buy := 1, hold := 0, sell := 0 } }

/-- Witness for claim C5 at a concrete bundle with probability distribution
[0, 0, 1]: confidence 1 lies in [0, 1] and the probabilities sum to 1. -/
theorem spec_C5_witness :
    predict_signal (testModel 2 [0, 0, 1]) testScaler [1] = some w5
    ∧ 0 ≤ w5.confidence
    ∧ w5.confidence ≤ 1
    ∧ w5.probabilities.buy + w5.probabilities.hold + w5.probabilities.sell = 1 :=
  ⟨by decide,
   (spec_C5 (testModel 2 [0, 0, 1]) testScaler [1] [1] 2 0 0 1 w5 rfl rfl rfl
      (by decide) (by decide) (by decide) (by simp) (by decide)).2.2.2.2.1,
   (spec_C5 (testModel 2 [0, 0, 1]) testScaler [1] [1] 2 0 0 1 w5 rfl rfl rfl
      (by decide) (by decide) (by decide) (by simp) (by decide)).2.2.2.2.2.1,
   (spec_C5 (testModel 2 [0, 0, 1]) testScaler [1] [1] 2 0 0 1 w5 rfl rfl rfl
      (by decide) (by decide) (by decide) (by simp) (by decide)).2.2.2.2.2.2⟩

/-- Claim C6: in the trainer, cross_val_score receives exactly the scaled
test partition and the test labels, with 5 folds (not the training
partition). -/
theorem spec_C6 (P : Type) (impl : ScalerImpl P) (split : SplitFun)
    (input : TrainInput) :
    (train_pipeline split impl input).cvX
        = impl.transform (impl.fit (split input.features input.labels).xTrain)
            (split input.features input.labels).xTest
    ∧ (train_pipeline split impl input).cvY
        = (split input.features input.labels).yTest
    ∧ (train_pipeline split impl input).cvFolds = 5 :=
  ⟨rfl, rfl, rfl⟩

/-- Claim C7: the scaler is fitted on the training partition only, the
fitted parameters transform both partitions, and the fitted parameters do
not depend on the test partition (replacing the test data leaves them
unchanged). -/
theorem spec_C7 (P : Type) (impl : ScalerImpl P)
    (xTr xTe xTe2 : List (List ℚ)) (yTr yTe yTe2 : List ℤ) :
    (train_after_split impl xTr xTe yTr yTe).scalerParams = impl.fit xTr
    ∧ (train_after_split impl xTr xTe yTr yTe).scalerFitData = xTr
    ∧ (train_after_split impl xTr xTe yTr yTe).fitX
        = impl.transform (impl.fit xTr) xTr
    ∧ (train_after_split impl xTr xTe yTr yTe).cvX
        = impl.transform (impl.fit xTr) xTe
    ∧ (train_after_split impl xTr xTe2 yTr yTe2).scalerParams
        = (train_after_split impl xTr xTe yTr yTe).scalerParams :=
  ⟨rfl, rfl, rfl, rfl, rfl⟩

/-- Claim C8: a malformed input JSON (parse result none) makes either script
exit with code 1 having produced no output event: no output file is created
or partially written. -/
theorem spec_C8 :
    (∀ (loaded : Option (RFModel × Scaler)) (out : Option String),
        (predict_main loaded none out).exitCode = 1
        ∧ (predict_main loaded none out).events = [])
    ∧ (∀ (P : Type) (split : SplitFun) (impl : ScalerImpl P),
        (train_main none split impl).exitCode = 1
        ∧ (train_main none split impl).events = []) := by
  constructor
  · rintro (_ | ⟨m, s⟩) out
    · exact ⟨rfl, rfl⟩
    · exact ⟨rfl, rfl⟩
  · intro P split impl
    exact ⟨rfl, rfl⟩

/-- Claim C10: with a fixed loaded bundle, the prediction is deterministic:
running it on an identical feature vector twice gives identical results,
both for the core prediction function and for a whole predictor
invocation. -/
theorem spec_C10 (m : RFModel) (s : Scaler) (f g : List ℚ) (h : f = g) :
    predict_signal m s f = predict_signal m s g
    ∧ predict_main (some (m, s)) (some f) none
        = predict_main (some (m, s)) (some g) none := by
  subst h
  exact ⟨rfl, rfl⟩

/-- Witness for claim C10 at a concrete bundle and feature vector. -/
theorem spec_C10_witness :
    predict_signal (testModel 2 [0, 0, 1]) testScaler [1]
      = predict_signal (testModel 2 [0, 0, 1]) testScaler [1] :=
  (spec_C10 (testModel 2 [0, 0, 1]) testScaler [1] [1] rfl).1

/-- Claim C4: a parsed features array whose length is not 13 makes the
predictor log the warning and continue: the vector is still passed to the
scaler call (and to classification when scaling succeeds), a successful
downstream run still exits 0, the warning is the only source of a warn
event in the predictor, and the trainer has no warn-and-continue case at
all (a failing trainer run produces no event). -/
theorem spec_C4 (model : RFModel) (scaler : Scaler) (features : List ℚ)
    (out : Option String) (hlen : features.length ≠ 13) :
    PredEvent.warnFeatureCount features.length
      ∈ (predict_main (some (model, scaler)) (some features) out).events
    ∧ PredEvent.scalerCalled features
      ∈ (predict_main (some (model, scaler)) (some features) out).events
    ∧ (∀ xs, scaler.transform features = some xs →
        PredEvent.classifierCalled xs
          ∈ (predict_main (some (model, scaler)) (some features) out).events)
    ∧ (∀ r, predict_signal model scaler features = some r →
        (predict_main (some (model, scaler)) (some features) out).exitCode = 0)
    ∧ (∀ (loaded : Option (RFModel × Scaler)) (parsed : Option (List ℚ))
        (out2 : Option String) (n : ℕ),
        PredEvent.warnFeatureCount n ∈ (predict_main loaded parsed out2).events →
        ∃ fs, parsed = some fs ∧ n = fs.length ∧ fs.length ≠ 13)
    ∧ (∀ (P : Type) (parsed : Option TrainInput) (split : SplitFun)
        (impl : ScalerImpl P),
        (train_main parsed split impl).exitCode = 1 →
        (train_main parsed split impl).events = []) := by
  refine ⟨?_, ?_, ?_, ?_, ?_, ?_⟩
  · rcases hps : predict_signal model scaler features with _ | r <;>
      rcases out with _ | path <;>
      simp [predict_main, hps, hlen]
  · rcases hps : predict_signal model scaler features with _ | r <;>
      rcases out with _ | path <;>
      simp [predict_main, hps, hlen]
  · intro xs hxs
    rcases hps : predict_signal model scaler features with _ | r <;>
      rcases out with _ | path <;>
      simp [predict_main, hps, hlen, hxs]
  · intro r hr
    rcases out with _ | path <;> simp [predict_main, hr, hlen]
  · intro loaded parsed out2 n hmem
    rcases loaded with _ | ⟨m2, s2⟩
    · simp [predict_main] at hmem
    rcases parsed with _ | fs
    · simp [predict_main] at hmem
    by_cases h13 : fs.length = 13
    · exfalso
      rcases hps : predict_signal m2 s2 fs with _ | r <;>
        rcases hx : s2.transform fs with _ | xs <;>
        rcases out2 with _ | path <;>
        simp [predict_main, hps, hx, h13] at hmem
    · refine ⟨fs, rfl, ?_, h13⟩
      rcases hps : predict_signal m2 s2 fs with _ | r <;>
        rcases hx : s2.transform fs with _ | xs <;>
        rcases out2 with _ | path <;>
        simp [predict_main, hps, hx, h13] at hmem <;>
        exact hmem
  · intro P parsed split impl h1
    rcases parsed with _ | input
    · rfl
    · simp [train_main] at h1

/-- Witness for claim C4 at a concrete bundle and a one-element features
array: the warning event and the scaler call are both present. -/
theorem spec_C4_witness :
    ([(1 : ℚ)].length ≠ 13)
    ∧ PredEvent.warnFeatureCount 1
        ∈ (predict_main (some (testModel 2 [0, 0, 1], testScaler))
            (some [1]) none).events :=
  ⟨by decide,
   (spec_C4 (testModel 2 [0, 0, 1]) testScaler [1] none (by decide)).1⟩

/-- Claim C9: for the same loaded bundle and the same parsed features, the
JSON value written to the --output file equals the JSON value that would be
printed to stdout when --output is absent. -/
theorem spec_C9 (loaded : Option (RFModel × Scaler))
    (parsed : Option (List ℚ)) (path : String) :
    fileOutput (predict_main loaded parsed (some path))
      = stdoutOutput (predict_main loaded parsed none) := by
  rcases loaded with _ | ⟨m, s⟩
  · rfl
  rcases parsed with _ | fs
  · rfl
  rcases hps : predict_signal m s fs with _ | r <;>
    rcases hx : s.transform fs with _ | xs <;>
    by_cases h13 : fs.length = 13 <;>
    simp [predict_main, fileOutput, stdoutOutput, hps, hx, h13, List.findSome?]
